import Mathlib

/-!
# AttenDesk — shallow embedding of the analytical pipeline

This file embeds, in Lean 4, the analytical core of the AttenDesk
repository (schedule analysis, academic-performance analysis, and
curriculum orchestration) and proves or refutes the specification claims
about it.

Modelling conventions:
* Python `int` values (durations, minutes-of-day) are `Int`.
* Python `float` scores and averages are `ℚ` (the programs only ever
  form sums and quotients of the input scores, which stay exact).
* A Python dict field accessed with `d.get(k, default)` becomes an
  `Option` field read with `.getD default`; a bare subscript `d[k]`
  becomes a field access that raises `PyError.keyError` when absent.
* `datetime` values are minutes (`Int`); the `datetime.now()` fallback of
  the time parser is an explicit `now : Int` parameter.
* `uuid.uuid4()` is an explicit supply `uuids : Nat → String`.
-/

/-- Errors a modelled Python computation can raise. -/
inductive PyError where
  | keyError (key : String)
  | nameError (name : String)
  | exception (msg : String)
  deriving DecidableEq, Repr

/-- Python `int(x)` applied to a rational: truncation toward zero. -/
def pyInt (q : ℚ) : Int :=
  if 0 ≤ q then ⌊q⌋ else ⌈q⌉

/-- Arithmetic mean `sum(xs) / len(xs)` of a list of scores. -/
def listMean (xs : List ℚ) : ℚ :=
  xs.sum / (xs.length : ℚ)

/-! ## `src/services/timetable_analyzer.py` — `TimetableAnalyzer` -/

/-- Model of `TimetableAnalyzer._classify_break_type` (timetable_analyzer.py:89-98):
`<=15 → short`, `elif <=45 → medium`, `elif 60<=d<=120 → lunch`,
`else → long`. -/
def classifyBreakType (duration_minutes : Int) : String :=
  if duration_minutes ≤ 15 then "short"
  else if duration_minutes ≤ 45 then "medium"
  else if 60 ≤ duration_minutes ∧ duration_minutes ≤ 120 then "lunch"
  else "long"

/-! ## Character-level string primitives

Lean's builtin `String.splitOn`, `String.trim`, `String.toUpper`,
`String.toLower` and `String.toNat?` do not reduce inside the kernel, so
the string operations the source relies on are implemented here over
`String.data` by structural recursion. -/

/-- Upper-case one ASCII character. -/
def upChar (c : Char) : Char :=
  if 'a' ≤ c ∧ c ≤ 'z' then Char.ofNat (c.toNat - 32) else c

/-- Lower-case one ASCII character. -/
def lowChar (c : Char) : Char :=
  if 'A' ≤ c ∧ c ≤ 'Z' then Char.ofNat (c.toNat + 32) else c

/-- Python `s.upper()`. -/
def pyUpper (s : String) : String := ⟨s.data.map upChar⟩

/-- Python `s.lower()`. -/
def pyLower (s : String) : String := ⟨s.data.map lowChar⟩

/-- ASCII whitespace, for `s.strip()`. -/
def isSpaceChar (c : Char) : Bool :=
  c = ' ' ∨ c = '\t' ∨ c = '\n' ∨ c = '\r'

/-- Python `s.strip()`. -/
def pyStrip (s : String) : String :=
  ⟨((s.data.dropWhile isSpaceChar).reverse.dropWhile isSpaceChar).reverse⟩

/-- Does the haystack start with the needle? -/
def startsWithChars : List Char → List Char → Bool
  | _, [] => true
  | [], _ :: _ => false
  | c :: cs, n :: ns => c = n && startsWithChars cs ns

/-- Substring occurrence over character lists. -/
def containsSub : List Char → List Char → Bool
  | [], needle => startsWithChars [] needle
  | c :: t, needle => startsWithChars (c :: t) needle || containsSub t needle

/-- Python `token in s`. -/
def containsTok (s token : String) : Bool :=
  containsSub s.data token.data

/-- Python `s.split(sep)` / `s.splitOn(sep)` for a one-character
separator. -/
def splitOnChar (sep : Char) : List Char → List (List Char)
  | [] => [[]]
  | c :: rest =>
      let r := splitOnChar sep rest
      if c = sep then [] :: r
      else
        match r with
        | [] => [[c]]
        | h :: t => (c :: h) :: t

/-- The numeric value of a decimal digit. -/
def digitVal? (c : Char) : Option Nat :=
  if '0' ≤ c ∧ c ≤ '9' then some (c.toNat - 48) else none

/-- Accumulate decimal digits. -/
def decDigitsAux : List Char → Nat → Option Nat
  | [], acc => some acc
  | c :: cs, acc =>
      match digitVal? c with
      | some d => decDigitsAux cs (acc * 10 + d)
      | none => none

/-- Parse a non-empty all-digit character list as a natural number. -/
def decDigits? (cs : List Char) : Option Nat :=
  if cs.isEmpty then none else decDigitsAux cs 0

/-! ## Time parsing (`TimetableAnalyzer._parse_time`) -/

/-- Model of `datetime.strptime(s, "%H:%M")`, as minutes of the day: one- or
two-digit hour `0..23`, colon, one- or two-digit minute `0..59`. -/
def parseHM (s : List Char) : Option Int :=
  match splitOnChar ':' s with
  | [h, m] =>
      match decDigits? h, decDigits? m with
      | some hv, some mv =>
          if 1 ≤ h.length ∧ h.length ≤ 2 ∧ 1 ≤ m.length ∧ m.length ≤ 2 ∧
              hv ≤ 23 ∧ mv ≤ 59 then
            some ((hv * 60 + mv : Nat) : Int)
          else none
      | _, _ => none
  | _ => none

/-- Model of `datetime.strptime(s, "%I:%M %p")`, as minutes of the day. -/
def parseIMp (s : List Char) : Option Int :=
  match splitOnChar ' ' s with
  | [hm, p] =>
      if (⟨p⟩ : String) = "AM" ∨ (⟨p⟩ : String) = "PM" then
        match splitOnChar ':' hm with
        | [h, m] =>
            match decDigits? h, decDigits? m with
            | some hv, some mv =>
                if 1 ≤ h.length ∧ h.length ≤ 2 ∧ 1 ≤ m.length ∧ m.length ≤ 2 ∧
                    1 ≤ hv ∧ hv ≤ 12 ∧ mv ≤ 59 then
                  let hv24 : Nat :=
                    if (⟨p⟩ : String) = "PM" then (if hv = 12 then 12 else hv + 12)
                    else (if hv = 12 then 0 else hv)
                  some ((hv24 * 60 + mv : Nat) : Int)
                else none
            | _, _ => none
        | _ => none
      else none
  | _ => none

/-- Model of `TimetableAnalyzer._parse_time` (timetable_analyzer.py:62-79): strip and
upper-case, use the 12-hour format when `AM`/`PM` occurs and the 24-hour
format otherwise; a `ValueError` falls back to a second `"%H:%M"` attempt
and finally to the current wall-clock time (the explicit `now` argument). -/
def parseTime (now : Int) (time_str : String) : Int :=
  let t := pyUpper (pyStrip time_str)
  if containsTok t "AM" ∨ containsTok t "PM" then
    match parseIMp t.data with
    | some v => v
    | none =>
        match parseHM t.data with
        | some v => v
        | none => now
  else
    match parseHM t.data with
    | some v => v
    | none =>
        match parseHM t.data with
        | some v => v
        | none => now

/-- Parsing pre-checks. -/
example : parseTime 999 "09:00" = 540 ∧ parseTime 999 " 9:05 pm " = 1265 ∧
    parseTime 999 "garbage" = 999 := by decide

/-! ## `src/services/timetable_analyzer.py` — schedule analysis -/

/-- A value of `timetable_dict['schedule']`: the class-info dict built by
`Timetable.add_class` (student.py:77-88), with each key modelled as
optional so that a malformed entry can omit it. -/
structure ClassInfo where
  subject : Option String := none
  teacher : Option String := none
  room : Option String := none
  topic : Option String := none
  start_time : Option String := none
  end_time : Option String := none
  deriving DecidableEq, Repr

/-- One element of the `time_slots` list of `analyze_daily_schedule`
(timetable_analyzer.py:18-27), with parsed times as minutes. -/
structure TimeSlot where
  start : Int
  endT : Int
  subject : String
  info : ClassInfo
  deriving DecidableEq, Repr

/-- A `BreakPeriod` (curriculum.py:33-44) as created by
`analyze_daily_schedule`; times are kept as minutes. -/
structure BreakPeriod where
  start_time : Int
  end_time : Int
  duration_minutes : Int
  break_type : String
  previous_class : Option ClassInfo := none
  next_class : Option ClassInfo := none
  deriving DecidableEq, Repr

/-- The sort key of `time_slots.sort(key=lambda x: x['start'])`. -/
def slotLE (a b : TimeSlot) : Prop := a.start ≤ b.start

instance : DecidableRel slotLE := fun a b => inferInstanceAs (Decidable (a.start ≤ b.start))

instance : IsTotal TimeSlot slotLE := ⟨fun a b => Int.le_total a.start b.start⟩

instance : IsTrans TimeSlot slotLE := ⟨fun _ _ _ h h' => le_trans h h'⟩

/-- The adjacent-pair loop of `analyze_daily_schedule`
(timetable_analyzer.py:33-58): for each consecutive pair of sorted slots,
emit a break when the gap reaches the threshold.  The gap
`_calculate_duration(end_i, start_(i+1))` is exact in whole minutes. -/
def findBreaks (threshold : Int) : List TimeSlot → List BreakPeriod
  | a :: b :: rest =>
      let duration := b.start - a.endT
      if threshold ≤ duration then
        { start_time := a.endT, end_time := b.start,
          duration_minutes := duration,
          break_type := classifyBreakType duration,
          previous_class := some a.info, next_class := some b.info }
          :: findBreaks threshold (b :: rest)
      else findBreaks threshold (b :: rest)
  | _ => []

/-- Model of `timetable_dict`: a dict that may carry a `schedule` mapping
(time-range string → class info). -/
structure TimetableDict where
  schedule : Option (List (String × ClassInfo)) := none
  deriving DecidableEq, Repr

/-- Python dict subscript `d[key]`: `KeyError` when the key is absent. -/
def getKey {α : Type} (field : Option α) (key : String) : Except PyError α :=
  match field with
  | some v => .ok v
  | none => .error (.keyError key)

/-- One entry of the slot-building loop of `analyze_daily_schedule`
(timetable_analyzer.py:19-27): `start_time`, `end_time` and `subject` are
read with bare subscripts (in that order), so a missing one raises
`KeyError`. -/
def parseEntry (now : Int) (entry : String × ClassInfo) : Except PyError TimeSlot := do
  let st ← getKey entry.2.start_time "start_time"
  let en ← getKey entry.2.end_time "end_time"
  let subj ← getKey entry.2.subject "subject"
  pure ⟨parseTime now st, parseTime now en, subj, entry.2⟩

/-- Model of `TimetableAnalyzer.analyze_daily_schedule` (timetable_analyzer.py:9-60),
continued: a falsy `timetable_dict` or a missing/falsy `schedule` yields
`[]`; otherwise each entry is parsed, the slots are sorted by start time
and the adjacent-pair loop emits the breaks
(threshold `break_threshold_minutes = 5`). -/
def analyzeDailySchedule (now : Int) (timetable_dict : Option TimetableDict) :
    Except PyError (List BreakPeriod) :=
  match timetable_dict with
  | none => .ok []
  | some td =>
      match td.schedule with
      | none => .ok []
      | some [] => .ok []
      | some schedule => do
          let time_slots ← schedule.mapM (parseEntry now)
          pure (findBreaks 5 (time_slots.insertionSort slotLE))

/-- Pre-check: the demo two-class day 09:00–10:00 / 10:15–11:15 yields the
single 15-minute short break 10:00–10:15. -/
example :
    analyzeDailySchedule 0 (some ⟨some
      [("09:00-10:00", { subject := some "Mathematics",
                         start_time := some "09:00", end_time := some "10:00" }),
       ("10:15-11:15", { subject := some "Physics",
                         start_time := some "10:15", end_time := some "11:15" })]⟩)
      = .ok [{ start_time := 600, end_time := 615, duration_minutes := 15,
               break_type := "short",
               previous_class := some { subject := some "Mathematics",
                                        start_time := some "09:00",
                                        end_time := some "10:00" },
               next_class := some { subject := some "Physics",
                                    start_time := some "10:15",
                                    end_time := some "11:15" } }] := by
  rfl

/-! ## `src/services/academic_analyzer.py` — `AcademicAnalyzer` -/

/-- One entry of `StudentProfile.academic_performance[subject]`
(student.py:38-43): the dict `{'score', 'test_type', 'date'}`. -/
structure PerfEntry where
  score : ℚ
  test_type : String
  date : String
  deriving DecidableEq, Repr

/-- Model of `AcademicAnalyzer._calculate_trend` (academic_analyzer.py:59-83).
`performance_history[-5:]` is `drop (length - 5)`; `scores[:n//2]` and
`scores[n//2:]` are `take (n/2)` and `drop (n/2)`. -/
def calculateTrend (performance_history : List PerfEntry) : String :=
  if performance_history.length < 2 then "insufficient_data"
  else
    let scores := (performance_history.drop (performance_history.length - 5)).map (·.score)
    if scores.length < 2 then "insufficient_data"
    else
      let first_half := scores.take (scores.length / 2)
      let second_half := scores.drop (scores.length / 2)
      let avg_first := listMean first_half
      let avg_second := listMean second_half
      let diff := avg_second - avg_first
      if diff > 5 then "improving"
      else if diff < -5 then "declining"
      else "stable"

/-- C6 pre-check: one record. -/
example : calculateTrend [⟨40, "exam", "d"⟩] = "insufficient_data" := by decide

/-- C6 pre-check: [50, 50, 50, 50, 90]. -/
example :
    calculateTrend
      [⟨50, "exam", "a"⟩, ⟨50, "exam", "b"⟩, ⟨50, "exam", "c"⟩,
       ⟨50, "exam", "d"⟩, ⟨90, "exam", "e"⟩] = "improving" := by
  norm_num [calculateTrend, listMean]

/-- C3 pre-checks. -/
example : classifyBreakType 15 = "short" ∧ classifyBreakType 46 = "long" ∧
    classifyBreakType 59 = "long" ∧ classifyBreakType 60 = "lunch" ∧
    classifyBreakType 121 = "long" := by decide

/-- Config.WEAK_SUBJECT_THRESHOLD (config.py:20). -/
def WEAK_SUBJECT_THRESHOLD : ℚ := 60

/-- Config.STRONG_SUBJECT_THRESHOLD (config.py:21). -/
def STRONG_SUBJECT_THRESHOLD : ℚ := 80

/-- Model of `StudentProfile.academic_performance`: an insertion-ordered dict
`subject → list of score entries`, modelled as an association list. -/
abbrev Performance := List (String × List PerfEntry)

/-- Model of `StudentProfile.get_average_score` (student.py:45-51): mean of the
subject's scores, `0.0` when the subject is absent or has no scores. -/
def getAverageScore (performance : Performance) (subject : String) : ℚ :=
  match performance.lookup subject with
  | none => 0
  | some entries =>
      let scores := entries.map (·.score)
      if scores.isEmpty then 0 else listMean scores

/-- Model of `AcademicAnalyzer._get_latest_score` (academic_analyzer.py:85-89). -/
def getLatestScore (performance_history : List PerfEntry) : ℚ :=
  match performance_history.getLast? with
  | none => 0
  | some entry => entry.score

/-- The static `skill_connections` table of
`AcademicAnalyzer._find_subject_gap` (academic_analyzer.py:189-194). -/
def skillConnections : List ((String × String) × String) :=
  [(("mathematics", "physics"), "mathematical problem solving"),
   (("physics", "chemistry"), "scientific reasoning"),
   (("chemistry", "biology"), "molecular understanding"),
   (("english", "history"), "analytical writing")]

/-- A learning-gap record as built by `_find_subject_gap`. -/
structure LearningGap where
  weaker_subject : String
  stronger_subject : String
  gap_size : ℚ
  connecting_skill : String
  recommendation : String
  deriving DecidableEq, Repr

/-- Model of `AcademicAnalyzer._find_subject_gap` (academic_analyzer.py:185-220).
Python's `get(k1) or get(k2)` is `Option.orElse` here (every skill string
in the table is non-empty, so `or` never skips a found value). -/
def findSubjectGap (performance : Performance) (subject1 subject2 : String) :
    Option LearningGap :=
  let score1 := getAverageScore performance subject1
  let score2 := getAverageScore performance subject2
  let score_diff := |score1 - score2|
  if score_diff > 20 then
    let weaker_subject := if score1 < score2 then subject1 else subject2
    let stronger_subject := if score1 < score2 then subject2 else subject1
    let connection_key := (pyLower weaker_subject, pyLower stronger_subject)
    let reverse_key := (pyLower stronger_subject, pyLower weaker_subject)
    match (skillConnections.lookup connection_key).orElse
        (fun _ => skillConnections.lookup reverse_key) with
    | some skill =>
        some { weaker_subject := weaker_subject,
               stronger_subject := stronger_subject,
               gap_size := score_diff,
               connecting_skill := skill,
               recommendation :=
                 "Use " ++ stronger_subject ++ " strengths to improve " ++ weaker_subject }
    | none => none
  else none

/-- The ordered pairs `(subjects[i], subjects[j])` with `i < j`, as
produced by the nested loops of `_analyze_learning_gaps`. -/
def orderedPairs : List String → List (String × String)
  | [] => []
  | s :: rest => rest.map (fun t => (s, t)) ++ orderedPairs rest

/-- Model of `AcademicAnalyzer._analyze_learning_gaps` (academic_analyzer.py:170-183). -/
def analyzeLearningGaps (performance : Performance) : List LearningGap :=
  (orderedPairs (performance.map (·.1))).filterMap
    (fun p => findSubjectGap performance p.1 p.2)

/-- One entry of `analysis['weak_subjects']` / `analysis['strong_subjects']`
(academic_analyzer.py:36-46). -/
structure WeakEntry where
  subject : String
  score : ℚ
  trend : String
  deriving DecidableEq, Repr

/-- One value of `analysis['performance_trends']`
(academic_analyzer.py:29-33). -/
structure TrendData where
  average_score : ℚ
  trend : String
  latest_score : ℚ
  deriving DecidableEq, Repr

/-- The `weak_subjects` list built by `analyze_student_performance`
(academic_analyzer.py:24-46): subjects with average below the weak
threshold, in subject-iteration order. -/
def weakSubjectsOf (performance : Performance) : List WeakEntry :=
  performance.filterMap (fun p =>
    let avg := getAverageScore performance p.1
    if avg < WEAK_SUBJECT_THRESHOLD then
      some ⟨p.1, avg, calculateTrend p.2⟩
    else none)

/-- The `performance_trends` mapping built by `analyze_student_performance`
(academic_analyzer.py:24-33). -/
def performanceTrendsOf (performance : Performance) : List (String × TrendData) :=
  performance.map (fun p =>
    (p.1, ⟨getAverageScore performance p.1, calculateTrend p.2, getLatestScore p.2⟩))

/-- Model of `AcademicAnalyzer._generate_recommendations` (academic_analyzer.py:222-248):
three appending loops — weak-subject lines, declining-trend lines, then one
interest line per student interest (each guarded by the weak list being
non-empty) — truncated to the first 5. -/
def generateRecommendations (weak_subjects : List WeakEntry)
    (performance_trends : List (String × TrendData))
    (interests : List String) : List String :=
  let recommendations : List String := []
  let recommendations := weak_subjects.foldl
    (fun acc ws =>
      acc ++ ["Focus on " ++ ws.subject ++
        " fundamentals with daily 10-minute practice sessions"]) recommendations
  let recommendations := performance_trends.foldl
    (fun acc p =>
      if p.2.trend = "declining" then
        acc ++ ["Address declining " ++ p.1 ++
          " performance with targeted review sessions"]
      else acc) recommendations
  let recommendations := interests.foldl
    (fun acc interest =>
      match weak_subjects.map (·.subject) with
      | [] => acc
      | w0 :: _ =>
          acc ++ ["Connect your interest in " ++ interest ++ " to " ++ w0 ++
            " for better engagement"]) recommendations
  recommendations.take 5

/-! ## `src/services/curriculum_generator.py` — `CurriculumGenerator` -/

/-- Python `str.title()`. -/
def isAlphaChar (c : Char) : Bool :=
  ('a' ≤ c ∧ c ≤ 'z') ∨ ('A' ≤ c ∧ c ≤ 'Z')

/-- Walk the characters, upper-casing the first letter of each word. -/
def pyTitleAux : List Char → Bool → List Char
  | [], _ => []
  | c :: cs, prevAlpha =>
      let c' := if isAlphaChar c then (if prevAlpha then lowChar c else upChar c) else c
      c' :: pyTitleAux cs (isAlphaChar c)

/-- Python `s.title()`. -/
def pyTitle (s : String) : String := ⟨pyTitleAux s.data false⟩

/-- Python `" and ".join(...)` and friends. -/
def joinSep (sep : String) : List String → String
  | [] => ""
  | [s] => s
  | s :: rest => s ++ sep ++ joinSep sep rest

/-- The `gamification` sub-dict built by `_add_gamification_elements`
(curriculum_generator.py and the fallback task). -/
structure Gamification where
  points : Int
  badges : List String
  streak_bonus : Bool
  challenge_level : String
  deriving DecidableEq, Repr

/-- A task dict as passed around the orchestrator: candidate tasks from
the generator, enhanced tasks, and fallback tasks all share this shape,
with each key optional exactly as in the Python dicts. -/
structure PyTask where
  task_id : Option String := none
  title : Option String := none
  description : Option String := none
  duration_minutes : Option Int := none
  subject : Option String := none
  difficulty : Option String := none
  instructions : Option (List String) := none
  learning_objective : Option String := none
  engagement_hook : Option String := none
  connection : Option String := none
  personalization_reason : Option String := none
  gamification : Option Gamification := none
  success_criteria : Option (List String) := none
  skills_targeted : Option (List String) := none
  resources : Option (List String) := none
  deriving DecidableEq, Repr

/-- The generation context built by `_build_generation_context`
(curriculum_generator.py:71-101): the fields that the validation,
enhancement and fallback code reads.  `previous_subject`/`next_subject`
are optional because they are only set when the break has an adjacent
class. -/
structure Context where
  duration_minutes : Int
  break_type : String := ""
  student_id : String := ""
  learning_style : String := "visual"
  interests : List String := []
  career_goals : List String := []
  weak_subjects : List String := []
  strong_subjects : List String := []
  recent_poor_topics : List String := []
  previous_subject : Option String := none
  previous_topic : Option String := none
  next_subject : Option String := none
  next_topic : Option String := none
  deriving DecidableEq, Repr

/-- Model of `CurriculumGenerator._get_personalization_reason`
(curriculum_generator.py:152-181). -/
def getPersonalizationReason (task : PyTask) (context : Context) : String :=
  let task_subject := pyLower (task.subject.getD "")
  let weak_subjects := context.weak_subjects.map pyLower
  let reasons : List String :=
    if weak_subjects.contains task_subject then
      ["targets your " ++ task_subject ++ " weakness"]
    else []
  let interests := context.interests.map pyLower
  let task_content := pyLower ((task.title.getD "") ++ " " ++ (task.description.getD ""))
  let reasons := reasons ++
    (match interests.find? (fun i => containsTok task_content i) with
     | some i => ["connects to your interest in " ++ i]
     | none => [])
  let prev := context.previous_subject.getD ""
  let next := context.next_subject.getD ""
  let reasons := reasons ++
    (if prev ≠ "" ∧ next ≠ "" then
       if containsTok (pyLower prev) task_subject ∨ containsTok (pyLower next) task_subject then
         ["bridges " ++ prev ++ " and " ++ next]
       else []
     else [])
  if reasons ≠ [] then "This task " ++ joinSep " and " reasons ++ "."
  else "This task matches your current learning needs."

/-- Model of `CurriculumGenerator._adjust_difficulty` (curriculum_generator.py:183-206). -/
def adjustDifficulty (task : PyTask) (context : Context) : String :=
  let original_difficulty := task.difficulty.getD "medium"
  let task_subject := pyLower (task.subject.getD "")
  let weak_subjects := context.weak_subjects.map pyLower
  let strong_subjects := context.strong_subjects.map pyLower
  if weak_subjects.contains task_subject then
    if original_difficulty = "hard" then "medium"
    else if original_difficulty = "medium" then "easy"
    else original_difficulty
  else if strong_subjects.contains task_subject then
    if original_difficulty = "easy" then "medium"
    else if original_difficulty = "medium" then "hard"
    else original_difficulty
  else original_difficulty

/-- The `difficulty_multiplier` table lookup of `_calculate_points`
(curriculum_generator.py:208-231), default `1.5`. -/
def difficultyMultiplier (difficulty : String) : ℚ :=
  if difficulty = "easy" then 1
  else if difficulty = "medium" then 3/2
  else if difficulty = "hard" then 2
  else 3/2

/-- Model of `CurriculumGenerator._calculate_points` (curriculum_generator.py:208-231):
`int(base_points * multiplier)` with the candidate's own difficulty. -/
def calculatePoints (task : PyTask) : Int :=
  let base_points := task.duration_minutes.getD 10
  pyInt ((base_points : ℚ) * difficultyMultiplier (task.difficulty.getD "medium"))

/-- Model of `CurriculumGenerator._get_potential_badges` (curriculum_generator.py:233-257). -/
def getPotentialBadges (task : PyTask) (context : Context) : List String :=
  let subject := pyLower (task.subject.getD "")
  let badges : List String :=
    if context.weak_subjects.contains subject then [pyTitle subject ++ " Improver"] else []
  let duration := task.duration_minutes.getD 0
  let badges := badges ++
    (if 20 ≤ duration then ["Deep Learner"]
     else if duration ≤ 10 then ["Quick Thinker"]
     else [])
  let task_content := pyLower ((task.title.getD "") ++ " " ++ (task.description.getD ""))
  badges ++
    (match context.interests.find? (fun i => containsTok task_content (pyLower i)) with
     | some i => [pyTitle i ++ " Explorer"]
     | none => [])

/-- Model of `CurriculumGenerator._add_gamification_elements`
(curriculum_generator.py:196-219 in the class body): note every field is
computed from the unmodified candidate `task`. -/
def addGamificationElements (task : PyTask) (context : Context) : Gamification :=
  { points := calculatePoints task,
    badges := getPotentialBadges task context,
    streak_bonus := 20 < context.duration_minutes,
    challenge_level := task.difficulty.getD "medium" }

/-- Model of `CurriculumGenerator._define_success_criteria` (curriculum_generator.py:259-280). -/
def defineSuccessCriteria (task : PyTask) : List String :=
  let criteria := ["Complete within " ++ toString (task.duration_minutes.getD 10) ++ " minutes"]
  let criteria := criteria ++
    (match task.instructions with
     | some l => if l ≠ [] then ["Follow all " ++ toString l.length ++ " steps"] else []
     | none => [])
  let criteria := criteria ++
    (match task.learning_objective with
     | some obj => ["Achieve: " ++ obj]
     | none => [])
  criteria ++ ["Stay focused throughout the activity"]

/-- Model of `CurriculumGenerator._enhance_task` (curriculum_generator.py:130-150):
copy the candidate and set id, personalization reason, adjusted
difficulty, gamification and success criteria.  The gamification (and so
its points and challenge level) is computed from the original candidate
`task`, not from the enhanced copy. -/
def enhanceTask (fresh_id : String) (task : PyTask) (context : Context) : PyTask :=
  { task with
      task_id := some fresh_id,
      personalization_reason := some (getPersonalizationReason task context),
      difficulty := some (adjustDifficulty task context),
      gamification := some (addGamificationElements task context),
      success_criteria := some (defineSuccessCriteria task) }

/-- Model of `CurriculumGenerator._create_fallback_task` (curriculum_generator.py:282-316). -/
def createFallbackTask (fresh_id : String) (duration_minutes : Int) (context : Context) : PyTask :=
  let subject :=
    match context.weak_subjects with
    | [] => "general"
    | s :: _ => s
  { task_id := some fresh_id,
    title := some ("Quick " ++ pyTitle subject ++ " Review"),
    description := some ("Spend " ++ toString duration_minutes ++
      " minutes reviewing your " ++ subject ++ " notes or textbook"),
    duration_minutes := some duration_minutes,
    subject := some subject,
    difficulty := some "easy",
    instructions := some
      ["Get your notes or textbook", "Review the most recent topic",
       "Write down 2-3 key points", "Think about questions you have"],
    learning_objective := some ("Reinforce recent " ++ subject ++ " learning"),
    engagement_hook := some "Quick confidence boost before next class",
    connection := some "Prepares you for upcoming classes",
    personalization_reason := some ("Focuses on your " ++ subject ++ " studies"),
    gamification := some
      { points := duration_minutes, badges := ["Quick Reviewer"],
        streak_bonus := false, challenge_level := "easy" },
    success_criteria := some
      ["Complete within " ++ toString duration_minutes ++ " minutes",
       "Review at least one topic", "Note key concepts"] }

/-- The candidate loop of `_validate_and_enhance_tasks`
(curriculum_generator.py:103-119): accumulate a candidate when the running
total plus its duration (default 10) fits in `max_duration`, and stop as
soon as two tasks have been accepted (the length check runs on every
iteration, after the acceptance branch). -/
def validateGo (uuids : Nat → String) (context : Context) (max_duration : Int) :
    List PyTask → Nat → List PyTask → Int → List PyTask
  | [], _, validated_tasks, _ => validated_tasks
  | task :: rest, i, validated_tasks, total_duration =>
      let task_duration := task.duration_minutes.getD 10
      if total_duration + task_duration ≤ max_duration then
        let validated' := validated_tasks ++ [enhanceTask (uuids i) task context]
        if 2 ≤ validated'.length then validated'
        else validateGo uuids context max_duration rest (i + 1) validated' (total_duration + task_duration)
      else
        if 2 ≤ validated_tasks.length then validated_tasks
        else validateGo uuids context max_duration rest (i + 1) validated_tasks total_duration

/-- Model of `CurriculumGenerator._validate_and_enhance_tasks`
(curriculum_generator.py:103-128): run the candidate loop with
`max_duration = duration - 2`; when nothing was accepted and
`max_duration > 5`, return the single fallback task instead. -/
def validateAndEnhanceTasks (uuids : Nat → String) (tasks : List PyTask) (context : Context) :
    List PyTask :=
  let max_duration := context.duration_minutes - 2
  let validated_tasks := validateGo uuids context max_duration tasks 0 [] 0
  if validated_tasks.isEmpty ∧ 5 < max_duration then
    [createFallbackTask (uuids tasks.length) max_duration context]
  else validated_tasks

/-- Python `task.get('duration_minutes', 10)`, the duration used by the
validation loop and the curriculum totals. -/
def pyDuration (task : PyTask) : Int := task.duration_minutes.getD 10

/-! ## `src/services/gemini_service.py` — `LlamaService._get_fallback_tasks`

The external generator absorbs its own failures: when the model call
raises, `generate_micro_tasks` returns these deterministic fallback
candidates instead (gemini_service.py:47-51, 216-303). -/

/-- Model of `LlamaService._get_fallback_tasks` (gemini_service.py:216-303).
Python `//` is floor division (`Int.fdiv`). -/
def getFallbackTasks (context : Context) : List PyTask :=
  let duration := context.duration_minutes
  let interests := context.interests
  let previous_subject := context.previous_subject.getD ""
  let next_subject := context.next_subject.getD ""
  let tasks : List PyTask :=
    match context.weak_subjects with
    | [] => []
    | subject :: _ =>
        [{ task_id := some "fallback_task_1",
           title := some (pyTitle subject ++ " Quick Review"),
           description := some ("Review fundamental concepts in " ++ subject ++
             " to strengthen understanding"),
           duration_minutes := some (min (duration.fdiv 2) 10),
           subject := some (pyLower subject),
           difficulty := some "easy",
           instructions := some
             ["Open your " ++ subject ++ " notes or textbook",
              "Review the most challenging recent topic",
              "Write down 3 key points you learned",
              "Think of one question to ask your teacher"],
           learning_objective := some ("Strengthen " ++ subject ++ " fundamentals"),
           engagement_hook := some ("Build confidence in " ++ subject),
           connection := some ("This addresses your " ++ subject ++
             " weakness and prepares you for future classes") }]
  let remaining : Int :=
    match tasks with
    | [] => duration
    | t :: _ => duration - t.duration_minutes.getD 0
  let tasks :=
    if previous_subject ≠ "" ∧ next_subject ≠ "" ∧ previous_subject ≠ next_subject then
      tasks ++
        [{ task_id := some "fallback_task_2",
           title := some (previous_subject ++ " to " ++ next_subject ++ " Bridge"),
           description := some ("Connect concepts from " ++ previous_subject ++
             " class to prepare for " ++ next_subject),
           duration_minutes := some remaining,
           subject := some "interdisciplinary",
           difficulty := some "medium",
           instructions := some
             ["Think about what you learned in " ++ previous_subject,
              "Consider how it might connect to " ++ next_subject,
              "Write down any connections you notice",
              "Prepare questions for your next teacher"],
           learning_objective := some "Connect learning across subjects",
           engagement_hook := some "See the big picture of learning",
           connection := some ("Bridges your " ++ previous_subject ++ " and " ++
             next_subject ++ " classes") }]
    else
      match interests with
      | [] => tasks
      | interest :: _ =>
          tasks ++
            [{ task_id := some "fallback_task_2",
               title := some (pyTitle interest ++ " Learning Connection"),
               description := some ("Explore how your interest in " ++ interest ++
                 " connects to your studies"),
               duration_minutes := some remaining,
               subject := some "interdisciplinary",
               difficulty := some "medium",
               instructions := some
                 ["Think about your interest in " ++ interest,
                  "Find connections to your recent classes",
                  "Look up one interesting fact online",
                  "Write down how this motivates your studies"],
               learning_objective := some ("Connect " ++ interest ++
                 " interest with academics"),
               engagement_hook := some "Make learning personal and exciting",
               connection := some ("Uses your " ++ interest ++
                 " interest to boost motivation") }]
  let tasks :=
    if tasks.isEmpty then
      [{ task_id := some "fallback_generic",
         title := some "Mindful Learning Review",
         description := some "Take time to review and organize your recent learning",
         duration_minutes := some duration,
         subject := some "general",
         difficulty := some "easy",
         instructions := some
           ["Look through your recent notes", "Organize your thoughts",
            "Identify what you learned today", "Set an intention for your next class"],
         learning_objective := some "Consolidate recent learning",
         engagement_hook := some "Prepare your mind for learning",
         connection := some "Helps you be more focused in upcoming classes" }]
    else tasks
  tasks.take 2

/-! ## Schedule resolution (`generate_daily_curriculum`, C5) -/

/-- The names defined at module level in
`src/services/curriculum_generator.py`: its imports (lines 1-8) and the
class statement (line 10).  `section_timetables` is not among them — that
dict is created in `app.py`'s own module namespace (app.py:22) and never
imported into or injected into this module. -/
def curriculumGeneratorModuleGlobals : List String :=
  ["Dict", "List", "StudentProfile", "DailyCurriculum", "BreakPeriod", "MicroTask",
   "TimetableAnalyzer", "AcademicAnalyzer", "GeminiService", "datetime", "uuid",
   "CurriculumGenerator"]

/-- Resolution of a bare global name inside `services.curriculum_generator`:
`NameError` when the name is defined neither in the module's globals nor as
a Python builtin (`section_timetables` is neither). -/
def lookupModuleGlobal (name : String) : Except PyError Unit :=
  if curriculumGeneratorModuleGlobals.contains name then .ok ()
  else .error (.nameError name)

/-- The schedule-resolution step of `generate_daily_curriculum`
(curriculum_generator.py:16-27).  A caller-supplied timetable is used as
is.  Otherwise the code evaluates `section_timetables.get(key)` with
`key = f"{semester}-{section}"`; evaluating the bare name
`section_timetables` is the first step, and only if that succeeded would
the lookup run and a miss reach
`raise Exception("No timetable found for student's section")`.
`sectionTimetables` is the dict living in `app.py`'s namespace, passed in
so that the model can express that it is unreachable from here. -/
def resolveTimetable (sectionTimetables : List (String × TimetableDict))
    (semester section_ : String) (timetable_dict : Option TimetableDict) :
    Except PyError TimetableDict :=
  match timetable_dict with
  | some t => .ok t
  | none => do
      let key := semester ++ "-" ++ section_
      let _ ← lookupModuleGlobal "section_timetables"
      match sectionTimetables.lookup key with
      | some t => .ok t
      | none => .error (.exception "No timetable found for student's section")

/-! # Theorems for the specification claims -/

/-- C3: for every integer duration, `classify_break_type` matches the
boundary table exactly: `≤15 → short`, `16–45 → medium`,
`60–120 → lunch`, and both `46–59` and `>120 → long`. -/
theorem classify_break_type_table (d : Int) :
    (d ≤ 15 → classifyBreakType d = "short") ∧
    (16 ≤ d ∧ d ≤ 45 → classifyBreakType d = "medium") ∧
    (60 ≤ d ∧ d ≤ 120 → classifyBreakType d = "lunch") ∧
    (46 ≤ d ∧ d ≤ 59 → classifyBreakType d = "long") ∧
    (120 < d → classifyBreakType d = "long") := by
  refine ⟨fun h => ?_, fun h => ?_, fun h => ?_, fun h => ?_, fun h => ?_⟩ <;>
    · unfold classifyBreakType
      split_ifs <;> first | rfl | omega

/-- Witness for `classify_break_type_table` at one point of each band. -/
theorem classify_break_type_table_witness :
    classifyBreakType 5 = "short" ∧ classifyBreakType 30 = "medium" ∧
    classifyBreakType 90 = "lunch" ∧ classifyBreakType 50 = "long" ∧
    classifyBreakType 200 = "long" :=
  ⟨(classify_break_type_table 5).1 (by decide),
   (classify_break_type_table 30).2.1 (by decide),
   (classify_break_type_table 90).2.2.1 (by decide),
   (classify_break_type_table 50).2.2.2.1 (by decide),
   (classify_break_type_table 200).2.2.2.2 (by decide)⟩

/-- C6: the trend is `insufficient_data` for fewer than 2 records, and
otherwise is computed over the last at most 5 records in chronological
order, split at `len/2` (so the middle element of an odd window falls in
the second half), with thresholds `> 5` / `< −5`; one record gives
`insufficient_data` and `[50, 50, 50, 50, 90]` gives `improving`. -/
theorem calculate_trend_spec :
    (∀ h : List PerfEntry, h.length < 2 → calculateTrend h = "insufficient_data") ∧
    (∀ h : List PerfEntry, 2 ≤ h.length →
      calculateTrend h =
        (let scores := (h.drop (h.length - 5)).map (·.score)
         let first_half := scores.take (scores.length / 2)
         let second_half := scores.drop (scores.length / 2)
         if listMean second_half - listMean first_half > 5 then "improving"
         else if listMean second_half - listMean first_half < -5 then "declining"
         else "stable")) ∧
    calculateTrend [⟨50, "exam", "a"⟩] = "insufficient_data" ∧
    calculateTrend
      [⟨50, "exam", "a"⟩, ⟨50, "exam", "b"⟩, ⟨50, "exam", "c"⟩,
       ⟨50, "exam", "d"⟩, ⟨90, "exam", "e"⟩] = "improving" := by
  refine ⟨fun h hl => ?_, fun h hl => ?_, by decide, by norm_num [calculateTrend, listMean]⟩
  · unfold calculateTrend
    rw [if_pos hl]
  · unfold calculateTrend
    rw [if_neg (by omega), if_neg (by simp; omega)]

/-- Witness for `calculate_trend_spec` at concrete histories. -/
theorem calculate_trend_spec_witness :
    calculateTrend [⟨70, "exam", "a"⟩] = "insufficient_data" ∧
    calculateTrend [⟨70, "exam", "a"⟩, ⟨70, "exam", "b"⟩] =
      (let scores := (([⟨70, "exam", "a"⟩, ⟨70, "exam", "b"⟩] :
          List PerfEntry).drop (2 - 5)).map (·.score)
       let first_half := scores.take (scores.length / 2)
       let second_half := scores.drop (scores.length / 2)
       if listMean second_half - listMean first_half > 5 then "improving"
       else if listMean second_half - listMean first_half < -5 then "declining"
       else "stable") :=
  ⟨calculate_trend_spec.1 [⟨70, "exam", "a"⟩] (by decide),
   calculate_trend_spec.2.1 [⟨70, "exam", "a"⟩, ⟨70, "exam", "b"⟩] (by decide)⟩

/-- C5 (code bug): with no caller-supplied timetable, the schedule
resolution of `generate_daily_curriculum` always fails with
`NameError: name 'section_timetables' is not defined` — whatever the
shared store holds — and that is a different error from the intended
`Exception("No timetable found for student's section")`, whose `raise` is
unreachable dead code. -/
theorem resolve_schedule_name_error
    (sectionTimetables : List (String × TimetableDict)) (semester sec : String) :
    resolveTimetable sectionTimetables semester sec none
      = .error (.nameError "section_timetables") ∧
    PyError.nameError "section_timetables" ≠
      PyError.exception "No timetable found for student's section" :=
  ⟨rfl, by decide⟩

/-- C10: the gamification attached by `_enhance_task` is computed from the
candidate's original difficulty — `challenge_level` is the candidate's
difficulty (default `medium`) and `points` uses its multiplier — not from
the adjusted difficulty stored on the enhanced task; concretely, a
`medium` candidate in a weak subject is stored with difficulty `easy`
while its `challenge_level` stays `medium` and its points are
`int(10 * 1.5) = 15`. -/
theorem gamification_uses_original_difficulty :
    (∀ (fresh : String) (task : PyTask) (context : Context),
      (enhanceTask fresh task context).gamification = some
        { points := pyInt ((pyDuration task : ℚ) *
            difficultyMultiplier (task.difficulty.getD "medium")),
          badges := getPotentialBadges task context,
          streak_bonus := decide (20 < context.duration_minutes),
          challenge_level := task.difficulty.getD "medium" }) ∧
    (enhanceTask "id0"
        { subject := some "math", difficulty := some "medium", duration_minutes := some 10 }
        { duration_minutes := 15, weak_subjects := ["math"] }).difficulty = some "easy" ∧
    ((enhanceTask "id0"
        { subject := some "math", difficulty := some "medium", duration_minutes := some 10 }
        { duration_minutes := 15, weak_subjects := ["math"] }).gamification.map
      Gamification.challenge_level) = some "medium" ∧
    ((enhanceTask "id0"
        { subject := some "math", difficulty := some "medium", duration_minutes := some 10 }
        { duration_minutes := 15, weak_subjects := ["math"] }).gamification.map
      Gamification.points) = some 15 := by
  refine ⟨fun fresh task context => rfl, by decide, by decide, ?_⟩
  show some (pyInt ((10 : ℚ) * difficultyMultiplier "medium")) = some 15
  have hm : difficultyMultiplier "medium" = 3 / 2 := by
    unfold difficultyMultiplier
    rw [if_neg (by decide), if_pos rfl]
  rw [hm]
  norm_num [pyInt]

/-- A performance record with averages 90 (mathematics) and 65 (physics),
a pair connected in the skill table. -/
def perfGapExample : Performance :=
  [("mathematics", [⟨90, "exam", "a"⟩]), ("physics", [⟨65, "exam", "b"⟩])]

/-- A performance record with averages 90 (english) and 65 (biology),
a 25-point delta with no entry in the skill table. -/
def perfNoTableExample : Performance :=
  [("english", [⟨90, "exam", "a"⟩]), ("biology", [⟨65, "exam", "b"⟩])]

/-- C8: a learning-gap record is emitted iff the absolute difference of the
two averages exceeds 20 and the static bidirectional table contains the
lowercased pair; the record names the lower-average subject as weaker;
averages 90/65 with a known connecting skill emit a gap naming the
65-subject as weaker, and a qualifying delta with no table entry emits
nothing. -/
theorem find_subject_gap_spec :
    (∀ (performance : Performance) (s1 s2 : String),
      (findSubjectGap performance s1 s2).isSome ↔
        (20 < |getAverageScore performance s1 - getAverageScore performance s2| ∧
          ((skillConnections.lookup (pyLower s1, pyLower s2)).isSome ∨
           (skillConnections.lookup (pyLower s2, pyLower s1)).isSome))) ∧
    (∀ (performance : Performance) (s1 s2 : String) (g : LearningGap),
      findSubjectGap performance s1 s2 = some g →
        g.weaker_subject =
          (if getAverageScore performance s1 < getAverageScore performance s2
           then s1 else s2) ∧
        g.stronger_subject =
          (if getAverageScore performance s1 < getAverageScore performance s2
           then s2 else s1) ∧
        getAverageScore performance g.weaker_subject <
          getAverageScore performance g.stronger_subject) ∧
    findSubjectGap perfGapExample "mathematics" "physics" =
      some { weaker_subject := "physics", stronger_subject := "mathematics",
             gap_size := 25, connecting_skill := "mathematical problem solving",
             recommendation := "Use mathematics strengths to improve physics" } ∧
    findSubjectGap perfNoTableExample "english" "biology" = none := by
  have ha : getAverageScore perfGapExample "mathematics" = 90 := by
    simp [perfGapExample, getAverageScore, List.lookup, listMean]
  have hb : getAverageScore perfGapExample "physics" = 65 := by
    simp [perfGapExample, getAverageScore, List.lookup, listMean]
  have hc : getAverageScore perfNoTableExample "english" = 90 := by
    simp [perfNoTableExample, getAverageScore, List.lookup, listMean]
  have hd0 : getAverageScore perfNoTableExample "biology" = 65 := by
    simp [perfNoTableExample, getAverageScore, List.lookup, listMean]
  refine ⟨?_, ?_, ?_, ?_⟩
  · intro performance s1 s2
    simp only [findSubjectGap]
    by_cases hd : (20 : ℚ) <
        |getAverageScore performance s1 - getAverageScore performance s2|
    · rw [if_pos hd]
      by_cases hlt : getAverageScore performance s1 < getAverageScore performance s2
      · simp only [if_pos hlt]
        cases h1 : skillConnections.lookup (pyLower s1, pyLower s2) <;>
          cases h2 : skillConnections.lookup (pyLower s2, pyLower s1) <;>
            simp [Option.orElse, h1, h2, hd]
      · simp only [if_neg hlt]
        cases h1 : skillConnections.lookup (pyLower s1, pyLower s2) <;>
          cases h2 : skillConnections.lookup (pyLower s2, pyLower s1) <;>
            simp [Option.orElse, h1, h2, hd, or_comm]
    · rw [if_neg hd]
      simp [hd]
  · intro performance s1 s2 g hg
    simp only [findSubjectGap] at hg
    by_cases hd : (20 : ℚ) <
        |getAverageScore performance s1 - getAverageScore performance s2|
    · rw [if_pos hd] at hg
      by_cases hlt : getAverageScore performance s1 < getAverageScore performance s2
      · simp only [if_pos hlt] at hg
        cases h1 : skillConnections.lookup (pyLower s1, pyLower s2) <;>
          cases h2 : skillConnections.lookup (pyLower s2, pyLower s1) <;>
            rw [h1, h2] at hg <;> simp [Option.orElse] at hg <;>
            · obtain rfl := hg.symm
              simp [if_pos hlt, hlt]
      · simp only [if_neg hlt] at hg
        have hgt : getAverageScore performance s2 < getAverageScore performance s1 := by
          rcases lt_abs.mp hd with h | h
          · linarith
          · exfalso
            push_neg at hlt
            linarith [abs_nonneg
              (getAverageScore performance s1 - getAverageScore performance s2)]
        cases h1 : skillConnections.lookup (pyLower s1, pyLower s2) <;>
          cases h2 : skillConnections.lookup (pyLower s2, pyLower s1) <;>
            rw [h2, h1] at hg <;> simp [Option.orElse] at hg <;>
            · obtain rfl := hg.symm
              simp [if_neg hlt, hgt]
    · rw [if_neg hd] at hg
      exact absurd hg (by simp)
  · simp only [findSubjectGap, ha, hb]
    norm_num
    decide
  · simp only [findSubjectGap, hc, hd0]
    norm_num
    decide

/-- Witness for `find_subject_gap_spec`: the weaker/stronger naming
instantiated at the concrete 90/65 performance record. -/
theorem find_subject_gap_spec_witness :
    ({ weaker_subject := "physics", stronger_subject := "mathematics",
       gap_size := 25, connecting_skill := "mathematical problem solving",
       recommendation := "Use mathematics strengths to improve physics" } :
        LearningGap).weaker_subject =
      (if getAverageScore perfGapExample "mathematics" <
          getAverageScore perfGapExample "physics"
       then "mathematics" else "physics") ∧
    ({ weaker_subject := "physics", stronger_subject := "mathematics",
       gap_size := 25, connecting_skill := "mathematical problem solving",
       recommendation := "Use mathematics strengths to improve physics" } :
        LearningGap).stronger_subject =
      (if getAverageScore perfGapExample "mathematics" <
          getAverageScore perfGapExample "physics"
       then "physics" else "mathematics") ∧
    getAverageScore perfGapExample "physics" <
      getAverageScore perfGapExample "mathematics" :=
  find_subject_gap_spec.2.1 perfGapExample "mathematics" "physics" _
    find_subject_gap_spec.2.2.1

/-- The weak-subject loop of `_generate_recommendations` as a map. -/
theorem foldl_append_focus :
    ∀ (l : List WeakEntry) (acc : List String),
      l.foldl (fun acc ws => acc ++ ["Focus on " ++ ws.subject ++
          " fundamentals with daily 10-minute practice sessions"]) acc
        = acc ++ l.map (fun ws => "Focus on " ++ ws.subject ++
            " fundamentals with daily 10-minute practice sessions")
  | [], acc => by simp
  | x :: l, acc => by
      simp [foldl_append_focus l]

/-- The declining-trend loop of `_generate_recommendations` as a
`filterMap`. -/
theorem foldl_append_decline :
    ∀ (l : List (String × TrendData)) (acc : List String),
      l.foldl (fun acc p => if p.2.trend = "declining" then
          acc ++ ["Address declining " ++ p.1 ++
            " performance with targeted review sessions"]
        else acc) acc
        = acc ++ l.filterMap (fun p => if p.2.trend = "declining" then
            some ("Address declining " ++ p.1 ++
              " performance with targeted review sessions")
          else none)
  | [], acc => by simp
  | x :: l, acc => by
      by_cases h : x.2.trend = "declining" <;> simp [h, foldl_append_decline l]

/-- The interest loop of `_generate_recommendations` as a map. -/
theorem foldl_append_connect (w0 : String) :
    ∀ (l : List String) (acc : List String),
      l.foldl (fun acc interest => acc ++ ["Connect your interest in " ++ interest ++
          " to " ++ w0 ++ " for better engagement"]) acc
        = acc ++ l.map (fun interest => "Connect your interest in " ++ interest ++
            " to " ++ w0 ++ " for better engagement")
  | [], acc => by simp
  | x :: l, acc => by
      simp [foldl_append_connect w0 l]

/-- A fold that never touches the accumulator returns it. -/
theorem foldl_id {α β : Type} :
    ∀ (l : List α) (acc : β), l.foldl (fun a _ => a) acc = acc
  | [], _ => rfl
  | _ :: l, acc => foldl_id l acc

/-- A performance record with one weak, stable subject. -/
def perfC7Example : Performance :=
  [("mathematics", [⟨50, "exam", "a"⟩, ⟨50, "exam", "b"⟩])]

/-- C7 counterexample: with one weak subject, no declining trend and two
interests, the recommendations carry two interest-linkage lines — the
interest loop appends one line per interest, so "at most one
interest-linkage line" is false. -/
theorem recommendations_two_interest_lines :
    ¬ ((generateRecommendations (weakSubjectsOf perfC7Example)
          (performanceTrendsOf perfC7Example) ["ai", "space science"]).countP
        (fun s => containsTok s "Connect your interest in") ≤ 1) := by
  have havg : getAverageScore
      [("mathematics", [⟨50, "exam", "a"⟩, ⟨50, "exam", "b"⟩])] "mathematics" = 50 := by
    simp [getAverageScore, List.lookup, listMean]
  have htr : calculateTrend [⟨50, "exam", "a"⟩, ⟨50, "exam", "b"⟩] = "stable" := by
    norm_num [calculateTrend, listMean]
  have hw : weakSubjectsOf perfC7Example = [⟨"mathematics", 50, "stable"⟩] := by
    simp only [weakSubjectsOf, perfC7Example, List.filterMap_cons, List.filterMap_nil,
      havg, htr, WEAK_SUBJECT_THRESHOLD]
    norm_num
  have ht : performanceTrendsOf perfC7Example =
      [("mathematics", ⟨50, "stable", 50⟩)] := by
    simp only [performanceTrendsOf, perfC7Example, List.map_cons, List.map_nil,
      havg, htr]
    exact rfl
  rw [hw, ht]
  decide

/-- C7 amended: the recommendations list is the concatenation, in order,
of one line per weak subject, one line per subject with a declining trend,
then one interest-linkage line **per student interest** (each emitted only
when at least one weak subject exists, referencing the first weak
subject), truncated to the first 5 lines overall. -/
theorem generate_recommendations_structure
    (weak_subjects : List WeakEntry) (performance_trends : List (String × TrendData))
    (interests : List String) :
    generateRecommendations weak_subjects performance_trends interests =
      ((weak_subjects.map (fun ws =>
          "Focus on " ++ ws.subject ++
            " fundamentals with daily 10-minute practice sessions")) ++
        (performance_trends.filterMap (fun p =>
          if p.2.trend = "declining" then
            some ("Address declining " ++ p.1 ++
              " performance with targeted review sessions")
          else none)) ++
        (match weak_subjects with
         | [] => []
         | w :: _ => interests.map (fun i =>
             "Connect your interest in " ++ i ++ " to " ++ w.subject ++
               " for better engagement"))).take 5 := by
  simp only [generateRecommendations]
  cases weak_subjects with
  | nil =>
      rw [foldl_append_decline]
      simp [foldl_id]
  | cons w ws =>
      rw [foldl_append_focus, foldl_append_decline]
      simp only [List.map_cons]
      rw [foldl_append_connect]
      simp [List.append_assoc]

/-- Enhancement does not change a task's (defaulted) duration. -/
theorem pyDuration_enhanceTask (fresh : String) (task : PyTask) (context : Context) :
    pyDuration (enhanceTask fresh task context) = pyDuration task := rfl

/-- Invariant of the candidate loop: starting from at most one accepted
task whose durations sum to a total within budget, the loop returns at
most two tasks whose (defaulted) durations sum to at most the budget. -/
theorem validateGo_budget (uuids : Nat → String) (context : Context)
    (max_duration : Int) (tasks : List PyTask) :
    ∀ (i : Nat) (acc : List PyTask) (total : Int),
      acc.length ≤ 1 → (acc.map pyDuration).sum = total → total ≤ max_duration →
      (validateGo uuids context max_duration tasks i acc total).length ≤ 2 ∧
      ((validateGo uuids context max_duration tasks i acc total).map pyDuration).sum ≤
        max_duration := by
  induction tasks with
  | nil =>
      intro i acc total h1 h2 h3
      simp only [validateGo]
      exact ⟨by omega, h2 ▸ h3⟩
  | cons task rest ih =>
      intro i acc total h1 h2 h3
      simp only [validateGo]
      by_cases hfit : total + task.duration_minutes.getD 10 ≤ max_duration
      · rw [if_pos hfit]
        have hsum : ((acc ++ [enhanceTask (uuids i) task context]).map pyDuration).sum
            = total + task.duration_minutes.getD 10 := by
          rw [List.map_append, List.sum_append, h2]
          simp [pyDuration, enhanceTask]
        by_cases hlen : 2 ≤ (acc ++ [enhanceTask (uuids i) task context]).length
        · rw [if_pos hlen]
          refine ⟨?_, ?_⟩
          · simp only [List.length_append, List.length_cons, List.length_nil]
            omega
          · rw [hsum]
            exact hfit
        · rw [if_neg hlen]
          refine ih (i + 1) (acc ++ [enhanceTask (uuids i) task context])
            (total + task.duration_minutes.getD 10) ?_ hsum hfit
          simp only [List.length_append, List.length_cons, List.length_nil] at hlen ⊢
          omega
      · rw [if_neg hfit]
        have hlen2 : ¬ (2 ≤ acc.length) := by omega
        rw [if_neg hlen2]
        exact ih (i + 1) acc total h1 h2 h3

/-- C1: for every break and candidate sequence, validation accepts at most
2 tasks (never a 3rd) and only candidates that keep the running total of
durations within `duration − 2`; so the sum of the returned tasks'
durations never exceeds `break.duration_minutes − 2` (the fallback task,
when synthesized, is sized to exactly that budget). -/
theorem validate_tasks_budget (uuids : Nat → String) (tasks : List PyTask)
    (context : Context) (h : 2 ≤ context.duration_minutes) :
    (validateAndEnhanceTasks uuids tasks context).length ≤ 2 ∧
    ((validateAndEnhanceTasks uuids tasks context).map pyDuration).sum ≤
      context.duration_minutes - 2 := by
  have hmax : (0 : Int) ≤ context.duration_minutes - 2 := by omega
  have hloop := validateGo_budget uuids context (context.duration_minutes - 2) tasks
    0 [] 0 (by simp) (by simp) hmax
  simp only [validateAndEnhanceTasks]
  split_ifs with hempty
  · refine ⟨by simp, ?_⟩
    simp [pyDuration, createFallbackTask]
  · exact hloop

/-- Witness for `validate_tasks_budget` on a 15-minute break with no
candidates (the fallback path). -/
theorem validate_tasks_budget_witness :
    (validateAndEnhanceTasks (fun _ => "u") [] { duration_minutes := 15 }).length ≤ 2 ∧
    ((validateAndEnhanceTasks (fun _ => "u") [] { duration_minutes := 15 }).map
      pyDuration).sum ≤ 15 - 2 :=
  validate_tasks_budget (fun _ => "u") [] { duration_minutes := 15 } (by norm_num)

/-- On a 15-minute break (budget 13), a 7-minute candidate followed by an
8-minute candidate yields exactly the enhanced first candidate. -/
theorem validate15_pair (uuids : Nat → String) (context : Context)
    (hdur : context.duration_minutes = 15) (t1 t2 : PyTask)
    (h1 : t1.duration_minutes.getD 10 = 7) (h2 : t2.duration_minutes.getD 10 = 8) :
    validateAndEnhanceTasks uuids [t1, t2] context = [enhanceTask (uuids 0) t1 context] := by
  simp only [validateAndEnhanceTasks, validateGo, h1, h2, hdur]
  norm_num

/-- On a 15-minute break, a single 7-minute candidate is accepted. -/
theorem validate15_single (uuids : Nat → String) (context : Context)
    (hdur : context.duration_minutes = 15) (t1 : PyTask)
    (h1 : t1.duration_minutes.getD 10 = 7) :
    validateAndEnhanceTasks uuids [t1] context = [enhanceTask (uuids 0) t1 context] := by
  simp only [validateAndEnhanceTasks, validateGo, h1, hdur]
  norm_num

/-- On a 15-minute break, a single 15-minute candidate is rejected and
replaced by the 13-minute fallback task. -/
theorem validate15_oversized (uuids : Nat → String) (context : Context)
    (hdur : context.duration_minutes = 15) (t : PyTask)
    (h : t.duration_minutes.getD 10 = 15) :
    validateAndEnhanceTasks uuids [t] context
      = [createFallbackTask (uuids 1) 13 context] := by
  simp only [validateAndEnhanceTasks, validateGo, h, hdur]
  norm_num

/-- C2: when the candidate loop accepted nothing and `duration − 2 > 5`,
validation returns exactly one synthesized fallback task of duration
`duration − 2`, subject the first weak subject (or `general`), difficulty
`easy`; and on a 15-minute break with the generator unavailable — whether
that surfaces as an empty candidate list or as the generator's own
deterministic fallback candidates — the break carries exactly one task of
duration at most 13. -/
theorem fallback_task_synthesis :
    (∀ (uuids : Nat → String) (tasks : List PyTask) (context : Context),
      validateGo uuids context (context.duration_minutes - 2) tasks 0 [] 0 = [] →
      5 < context.duration_minutes - 2 →
      validateAndEnhanceTasks uuids tasks context =
        [createFallbackTask (uuids tasks.length) (context.duration_minutes - 2) context] ∧
      pyDuration (createFallbackTask (uuids tasks.length)
        (context.duration_minutes - 2) context) = context.duration_minutes - 2 ∧
      (createFallbackTask (uuids tasks.length)
        (context.duration_minutes - 2) context).subject =
        some (match context.weak_subjects with | [] => "general" | s :: _ => s) ∧
      (createFallbackTask (uuids tasks.length)
        (context.duration_minutes - 2) context).difficulty = some "easy") ∧
    (∀ (uuids : Nat → String) (context : Context),
      context.duration_minutes = 15 →
      ((validateAndEnhanceTasks uuids [] context).length = 1 ∧
        ∀ t ∈ validateAndEnhanceTasks uuids [] context, pyDuration t ≤ 13) ∧
      ((validateAndEnhanceTasks uuids (getFallbackTasks context) context).length = 1 ∧
        ∀ t ∈ validateAndEnhanceTasks uuids (getFallbackTasks context) context,
          pyDuration t ≤ 13)) := by
  constructor
  · intro uuids tasks context hloop hbudget
    refine ⟨?_, rfl, rfl, rfl⟩
    simp only [validateAndEnhanceTasks, hloop]
    rw [if_pos ⟨rfl, hbudget⟩]
  · intro uuids context hdur
    constructor
    · -- empty candidate list: the orchestrator fallback, sized to 13
      simp only [validateAndEnhanceTasks, validateGo, hdur]
      rw [if_pos ⟨rfl, by norm_num⟩]
      refine ⟨rfl, ?_⟩
      intro t ht
      rw [List.mem_singleton] at ht
      subst ht
      show (15 - 2 : Int) ≤ 13
      decide
    · -- the generator's own fallback candidates
      cases hweak : context.weak_subjects with
      | cons s ws =>
          by_cases hbr : (context.previous_subject.getD "" ≠ "" ∧
              context.next_subject.getD "" ≠ "" ∧
              context.previous_subject.getD "" ≠ context.next_subject.getD "")
          · simp only [getFallbackTasks, hweak, hdur]
            rw [if_pos hbr]
            simp only [List.cons_append, List.nil_append, Option.getD_some,
              List.isEmpty_cons, Bool.false_eq_true, if_false, List.take_succ_cons,
              List.take_zero]
            rw [validate15_pair uuids context hdur]
            · refine ⟨rfl, ?_⟩
              intro t ht
              rw [List.mem_singleton] at ht
              subst ht
              show (Int.fdiv 15 2 ⊓ 10 : Int) ≤ 13
              decide
            · rfl
            · rfl
          · simp only [getFallbackTasks, hweak, hdur]
            rw [if_neg hbr]
            cases hint : context.interests with
            | cons i is =>
                simp only [List.cons_append, List.nil_append, Option.getD_some,
                  List.isEmpty_cons, Bool.false_eq_true, if_false, List.take_succ_cons,
                  List.take_zero]
                rw [validate15_pair uuids context hdur]
                · refine ⟨rfl, ?_⟩
                  intro t ht
                  rw [List.mem_singleton] at ht
                  subst ht
                  show (Int.fdiv 15 2 ⊓ 10 : Int) ≤ 13
                  decide
                · rfl
                · rfl
            | nil =>
                simp only [List.isEmpty_cons, Bool.false_eq_true, if_false,
                  List.take_succ_cons, List.take_zero, List.take_nil]
                rw [validate15_single uuids context hdur]
                · refine ⟨rfl, ?_⟩
                  intro t ht
                  rw [List.mem_singleton] at ht
                  subst ht
                  show (Int.fdiv 15 2 ⊓ 10 : Int) ≤ 13
                  decide
                · rfl
      | nil =>
          by_cases hbr : (context.previous_subject.getD "" ≠ "" ∧
              context.next_subject.getD "" ≠ "" ∧
              context.previous_subject.getD "" ≠ context.next_subject.getD "")
          · simp only [getFallbackTasks, hweak, hdur]
            rw [if_pos hbr]
            simp only [List.nil_append, List.isEmpty_cons, Bool.false_eq_true,
              if_false, List.take_succ_cons, List.take_zero, List.take_nil]
            rw [validate15_oversized uuids context hdur]
            · refine ⟨rfl, ?_⟩
              intro t ht
              rw [List.mem_singleton] at ht
              subst ht
              show (13 : Int) ≤ 13
              decide
            · rfl
          · simp only [getFallbackTasks, hweak, hdur]
            rw [if_neg hbr]
            cases hint : context.interests with
            | cons i is =>
                simp only [List.nil_append, List.isEmpty_cons, Bool.false_eq_true,
                  if_false, List.take_succ_cons, List.take_zero, List.take_nil]
                rw [validate15_oversized uuids context hdur]
                · refine ⟨rfl, ?_⟩
                  intro t ht
                  rw [List.mem_singleton] at ht
                  subst ht
                  show (13 : Int) ≤ 13
                  decide
                · rfl
            | nil =>
                simp only [List.isEmpty_nil, if_true, List.take_succ_cons,
                  List.take_zero, List.take_nil]
                rw [validate15_oversized uuids context hdur]
                · refine ⟨rfl, ?_⟩
                  intro t ht
                  rw [List.mem_singleton] at ht
                  subst ht
                  show (13 : Int) ≤ 13
                  decide
                · rfl

/-- Witness for `fallback_task_synthesis` on a 15-minute break with one
weak subject. -/
theorem fallback_task_synthesis_witness :
    (validateAndEnhanceTasks (fun _ => "u") []
        { duration_minutes := 15, weak_subjects := ["physics"] } =
      [createFallbackTask "u" 13 { duration_minutes := 15, weak_subjects := ["physics"] }] ∧
      pyDuration (createFallbackTask "u" 13
        { duration_minutes := 15, weak_subjects := ["physics"] }) = 13 ∧
      (createFallbackTask "u" 13
        { duration_minutes := 15, weak_subjects := ["physics"] }).subject = some "physics" ∧
      (createFallbackTask "u" 13
        { duration_minutes := 15, weak_subjects := ["physics"] }).difficulty = some "easy") ∧
    (validateAndEnhanceTasks (fun _ => "u")
      (getFallbackTasks { duration_minutes := 15, weak_subjects := ["physics"] })
      { duration_minutes := 15, weak_subjects := ["physics"] }).length = 1 :=
  ⟨fallback_task_synthesis.1 (fun _ => "u") []
      { duration_minutes := 15, weak_subjects := ["physics"] } rfl (by decide),
   (fallback_task_synthesis.2 (fun _ => "u")
      { duration_minutes := 15, weak_subjects := ["physics"] } rfl).2.1⟩

/-- Every emitted break comes from an adjacent pair of the slot list, with
a gap at least the threshold. -/
theorem mem_findBreaks (threshold : Int) :
    ∀ (l : List TimeSlot) (br : BreakPeriod), br ∈ findBreaks threshold l →
      ∃ a b, (a, b) ∈ l.zip l.tail ∧ threshold ≤ b.start - a.endT ∧
        br = { start_time := a.endT, end_time := b.start,
               duration_minutes := b.start - a.endT,
               break_type := classifyBreakType (b.start - a.endT),
               previous_class := some a.info, next_class := some b.info }
  | [], br => by simp [findBreaks]
  | [a], br => by simp [findBreaks]
  | a :: b :: rest, br => by
      intro hbr
      simp only [findBreaks] at hbr
      by_cases hgap : threshold ≤ b.start - a.endT
      · rw [if_pos hgap] at hbr
        rcases List.mem_cons.mp hbr with hbr | hbr
        · exact ⟨a, b, by simp, hgap, hbr⟩
        · obtain ⟨a', b', hm, hg, he⟩ := mem_findBreaks threshold (b :: rest) br hbr
          exact ⟨a', b', by simp [List.zip_cons_cons]; right; simpa using hm, hg, he⟩
      · rw [if_neg hgap] at hbr
        obtain ⟨a', b', hm, hg, he⟩ := mem_findBreaks threshold (b :: rest) br hbr
        exact ⟨a', b', by simp [List.zip_cons_cons]; right; simpa using hm, hg, he⟩

/-- The number of emitted breaks equals the number of adjacent pairs whose
gap reaches the threshold. -/
theorem findBreaks_length (threshold : Int) :
    ∀ (l : List TimeSlot),
      (findBreaks threshold l).length =
        ((l.zip l.tail).filter
          (fun p => decide (threshold ≤ p.2.start - p.1.endT))).length
  | [] => by simp [findBreaks]
  | [a] => by simp [findBreaks]
  | a :: b :: rest => by
      simp only [findBreaks, List.tail_cons, List.zip_cons_cons, List.filter_cons]
      by_cases hgap : threshold ≤ b.start - a.endT
      · rw [if_pos hgap]
        simp [hgap, findBreaks_length threshold (b :: rest)]
      · rw [if_neg hgap]
        simp [hgap, findBreaks_length threshold (b :: rest)]

/-- If every slot starts at or after `m` and no class ends before it
starts, every emitted break starts at or after `m`. -/
theorem findBreaks_start_lb (m : Int) (l : List TimeSlot)
    (hvalid : ∀ s ∈ l, s.start ≤ s.endT) (hm : ∀ s ∈ l, m ≤ s.start) :
    ∀ br ∈ findBreaks 5 l, m ≤ br.start_time := by
  intro br hbr
  obtain ⟨a, b, hm2, _, he⟩ := mem_findBreaks 5 l br hbr
  have ha : a ∈ l := (List.of_mem_zip hm2).1
  subst he
  exact le_trans (hm a ha) (hvalid a ha)

/-- If every slot starts at or before `M`, every emitted break ends at or
before `M`. -/
theorem findBreaks_end_ub (M : Int) (l : List TimeSlot)
    (hM : ∀ s ∈ l, s.start ≤ M) :
    ∀ br ∈ findBreaks 5 l, br.end_time ≤ M := by
  intro br hbr
  obtain ⟨a, b, hm2, _, he⟩ := mem_findBreaks 5 l br hbr
  have hb : b ∈ l := List.mem_of_mem_tail (List.of_mem_zip hm2).2
  subst he
  exact hM b hb

/-- On a start-sorted, valid slot list the emitted breaks are pairwise
ordered by start time. -/
theorem findBreaks_pairwise :
    ∀ (l : List TimeSlot), List.Sorted slotLE l → (∀ s ∈ l, s.start ≤ s.endT) →
      (findBreaks 5 l).Pairwise (fun x y => x.start_time ≤ y.start_time)
  | [] => by simp [findBreaks]
  | [a] => by simp [findBreaks]
  | a :: b :: rest => by
      intro hs hv
      have hs' : List.Sorted slotLE (b :: rest) := hs.of_cons
      have hv' : ∀ s ∈ b :: rest, s.start ≤ s.endT :=
        fun s hsm => hv s (List.mem_cons_of_mem a hsm)
      simp only [findBreaks]
      by_cases hgap : (5 : Int) ≤ b.start - a.endT
      · rw [if_pos hgap]
        refine List.Pairwise.cons ?_ (findBreaks_pairwise (b :: rest) hs' hv')
        intro br hbr
        refine findBreaks_start_lb a.endT (b :: rest) hv' ?_ br hbr
        intro s hsm
        rcases List.mem_cons.mp hsm with rfl | hsm
        · omega
        · have hbs : slotLE b s := List.rel_of_sorted_cons hs' s hsm
          simp only [slotLE] at hbs
          omega
      · rw [if_neg hgap]
        exact findBreaks_pairwise (b :: rest) hs' hv'

/-- The last element of a list is a member. -/
theorem getLast?_mem' :
    ∀ (l : List TimeSlot) (z : TimeSlot), l.getLast? = some z → z ∈ l
  | [], z => by simp
  | [a], z => by
      intro h
      simp only [List.getLast?_singleton, Option.some.injEq] at h
      simp [h]
  | a :: b :: rest, z => by
      intro h
      rw [List.getLast?_cons_cons] at h
      exact List.mem_cons_of_mem a (getLast?_mem' (b :: rest) z h)

/-- In a start-sorted list, every slot starts at or before the last. -/
theorem sorted_start_le_getLast :
    ∀ (l : List TimeSlot), List.Sorted slotLE l →
      ∀ x ∈ l, ∀ z, l.getLast? = some z → x.start ≤ z.start
  | [] => by simp
  | [a] => by
      intro _ x hx z hz
      simp only [List.mem_singleton] at hx
      simp only [List.getLast?_singleton, Option.some.injEq] at hz
      subst hx
      subst hz
      exact le_refl _
  | a :: b :: rest => by
      intro hs x hx z hz
      rw [List.getLast?_cons_cons] at hz
      rcases List.mem_cons.mp hx with rfl | hx
      · have hzmem : z ∈ b :: rest := getLast?_mem' (b :: rest) z hz
        exact List.rel_of_sorted_cons hs z hzmem
      · exact sorted_start_le_getLast (b :: rest) hs.of_cons x hx z hz

/-- C4: on a valid schedule with at least two classes, the Schedule
Analyzer emits exactly one BreakWindow per adjacent pair (in
start-time-sorted order) with a gap of at least 5 minutes, the windows
come out in non-decreasing start-time order, and every window lies at or
after the first class's start and at or before the last class's end. -/
theorem analyze_schedule_break_windows (slots : List TimeSlot)
    (_hlen : 2 ≤ slots.length) (hvalid : ∀ s ∈ slots, s.start ≤ s.endT) :
    (findBreaks 5 (slots.insertionSort slotLE)).length =
      (((slots.insertionSort slotLE).zip (slots.insertionSort slotLE).tail).filter
        (fun p => decide (5 ≤ p.2.start - p.1.endT))).length ∧
    ((findBreaks 5 (slots.insertionSort slotLE)).map BreakPeriod.start_time).Sorted
      (· ≤ ·) ∧
    (∀ br ∈ findBreaks 5 (slots.insertionSort slotLE),
      (∀ f, (slots.insertionSort slotLE).head? = some f → f.start ≤ br.start_time) ∧
      (∀ z, (slots.insertionSort slotLE).getLast? = some z → br.end_time ≤ z.endT)) := by
  have hperm := List.perm_insertionSort slotLE slots
  have hvalid' : ∀ s ∈ slots.insertionSort slotLE, s.start ≤ s.endT :=
    fun s hsm => hvalid s (hperm.mem_iff.mp hsm)
  have hsorted : List.Sorted slotLE (slots.insertionSort slotLE) :=
    List.sorted_insertionSort slotLE slots
  refine ⟨findBreaks_length 5 (slots.insertionSort slotLE), ?_, ?_⟩
  · rw [List.Sorted, List.pairwise_map]
    exact findBreaks_pairwise (slots.insertionSort slotLE) hsorted hvalid'
  · intro br hbr
    constructor
    · intro f hf
      cases hcase : slots.insertionSort slotLE with
      | nil => rw [hcase] at hf; exact absurd hf (by simp)
      | cons x t =>
          rw [hcase] at hf
          simp only [List.head?_cons, Option.some.injEq] at hf
          obtain rfl := hf
          refine findBreaks_start_lb x.start (slots.insertionSort slotLE)
            hvalid' ?_ br hbr
          intro s hsm
          rw [hcase] at hsm
          rcases List.mem_cons.mp hsm with rfl | hsm
          · exact le_refl _
          · exact List.rel_of_sorted_cons (hcase ▸ hsorted) s hsm
    · intro z hz
      have hzmem : z ∈ slots.insertionSort slotLE :=
        getLast?_mem' (slots.insertionSort slotLE) z hz
      have hub : ∀ s ∈ slots.insertionSort slotLE, s.start ≤ z.start :=
        fun s hsm => sorted_start_le_getLast (slots.insertionSort slotLE)
          hsorted s hsm z hz
      exact le_trans (findBreaks_end_ub z.start (slots.insertionSort slotLE) hub br hbr)
        (hvalid' z hzmem)

/-- The demo day: Mathematics 09:00–10:00 and Physics 10:15–11:15, as
already-parsed slots (minutes). -/
def slotsExample : List TimeSlot :=
  [⟨540, 600, "Mathematics", {}⟩, ⟨615, 675, "Physics", {}⟩]

/-- Witness for `analyze_schedule_break_windows` on the demo two-class day. -/
theorem analyze_schedule_break_windows_witness :
    (findBreaks 5 (slotsExample.insertionSort slotLE)).length =
      (((slotsExample.insertionSort slotLE).zip
          (slotsExample.insertionSort slotLE).tail).filter
        (fun p => decide (5 ≤ p.2.start - p.1.endT))).length ∧
    ((findBreaks 5 (slotsExample.insertionSort slotLE)).map
      BreakPeriod.start_time).Sorted (· ≤ ·) ∧
    (∀ br ∈ findBreaks 5 (slotsExample.insertionSort slotLE),
      (∀ f, (slotsExample.insertionSort slotLE).head? = some f →
        f.start ≤ br.start_time) ∧
      (∀ z, (slotsExample.insertionSort slotLE).getLast? = some z →
        br.end_time ≤ z.endT)) :=
  analyze_schedule_break_windows slotsExample (by decide) (by decide)

/-- C9 counterexample: a schedule whose single entry is an empty dict
makes `analyze_daily_schedule` raise `KeyError: 'start_time'` instead of
returning a sequence. -/
theorem analyze_schedule_keyerror :
    analyzeDailySchedule 0 (some ⟨some [("x", {})]⟩)
      = .error (.keyError "start_time") ∧
    ∀ l : List BreakPeriod,
      analyzeDailySchedule 0 (some ⟨some [("x", {})]⟩) ≠ .ok l := by
  refine ⟨rfl, fun l h => ?_⟩
  rw [show analyzeDailySchedule 0 (some ⟨some [("x", {})]⟩)
      = .error (.keyError "start_time") from rfl] at h
  exact Except.noConfusion h

/-- A well-formed entry parses. -/
theorem parseEntry_ok (now : Int) (entry : String × ClassInfo)
    (h1 : entry.2.start_time ≠ none) (h2 : entry.2.end_time ≠ none)
    (h3 : entry.2.subject ≠ none) :
    ∃ slot, parseEntry now entry = .ok slot := by
  rcases hst : entry.2.start_time with _ | st
  · exact absurd hst h1
  rcases hen : entry.2.end_time with _ | en
  · exact absurd hen h2
  rcases hsu : entry.2.subject with _ | su
  · exact absurd hsu h3
  refine ⟨⟨parseTime now st, parseTime now en, su, entry.2⟩, ?_⟩
  simp only [parseEntry, getKey, hst, hen, hsu]
  rfl

/-- A schedule whose entries all carry the three required keys parses
entry by entry. -/
theorem mapM_parseEntry_ok (now : Int) :
    ∀ (sched : List (String × ClassInfo)),
      (∀ e ∈ sched, e.2.start_time ≠ none ∧ e.2.end_time ≠ none ∧ e.2.subject ≠ none) →
      ∃ slots, sched.mapM (parseEntry now) = Except.ok slots
  | [] => fun _ => ⟨[], rfl⟩
  | e :: es => by
      intro hall
      obtain ⟨h1, h2, h3⟩ := hall e (List.mem_cons_self e es)
      obtain ⟨slot, hslot⟩ := parseEntry_ok now e h1 h2 h3
      obtain ⟨slots, hslots⟩ := mapM_parseEntry_ok now es
        (fun x hx => hall x (List.mem_cons_of_mem e hx))
      refine ⟨slot :: slots, ?_⟩
      rw [List.mapM_cons, hslot, hslots]
      rfl

/-- C9 amended: an empty timetable, a missing or empty `schedule`, all
yield the empty sequence without error, and a schedule whose entries all
carry `start_time`, `end_time` and `subject` is analyzed without error;
but an entry missing one of those keys raises a `KeyError` (see
`analyze_schedule_keyerror`) rather than yielding an empty sequence. -/
theorem analyze_schedule_error_behavior :
    (∀ now : Int, analyzeDailySchedule now none = .ok []) ∧
    (∀ (now : Int) (td : TimetableDict), td.schedule = none →
      analyzeDailySchedule now (some td) = .ok []) ∧
    (∀ (now : Int) (td : TimetableDict), td.schedule = some [] →
      analyzeDailySchedule now (some td) = .ok []) ∧
    (∀ (now : Int) (td : TimetableDict) (sched : List (String × ClassInfo)),
      td.schedule = some sched →
      (∀ e ∈ sched, e.2.start_time ≠ none ∧ e.2.end_time ≠ none ∧
        e.2.subject ≠ none) →
      ∃ l, analyzeDailySchedule now (some td) = .ok l) := by
  refine ⟨fun now => rfl, ?_, ?_, ?_⟩
  · intro now td h
    obtain ⟨sch⟩ := td
    simp only at h
    subst h
    rfl
  · intro now td h
    obtain ⟨sch⟩ := td
    simp only at h
    subst h
    rfl
  · intro now td sched h hall
    obtain ⟨sch⟩ := td
    simp only at h
    subst h
    cases sched with
    | nil => exact ⟨[], rfl⟩
    | cons e es =>
        obtain ⟨slots, hslots⟩ := mapM_parseEntry_ok now (e :: es) hall
        refine ⟨findBreaks 5 (slots.insertionSort slotLE), ?_⟩
        simp only [analyzeDailySchedule]
        rw [hslots]
        rfl

/-- Witness for `analyze_schedule_error_behavior` on the demo schedule. -/
theorem analyze_schedule_error_behavior_witness :
    ∃ l, analyzeDailySchedule 0 (some ⟨some
      [("09:00-10:00", { subject := some "Mathematics",
                         start_time := some "09:00", end_time := some "10:00" }),
       ("10:15-11:15", { subject := some "Physics",
                         start_time := some "10:15", end_time := some "11:15" })]⟩)
      = .ok l :=
  analyze_schedule_error_behavior.2.2.2 0 _ _ rfl (by decide)
